import Mathlib

/-
Verification of the structured log-submission helper (ElasticsearchLogger).

The embedding models:
  * documents as insertion-ordered association lists (Python dict semantics:
    assignment replaces in place or appends, `update` merges last-write-wins),
  * the timestamp as an explicit UTC clock value serialized the way
    `datetime.isoformat()` serializes an aware UTC datetime,
  * the two datastore handles abstractly: `log` / `log_async` return the
    write call they would issue (handle, target index, document), or the
    ValueError they would raise,
  * `close` as a function of which underlying `close` calls raise, returning
    the list of handles whose release was attempted plus the propagated error.
-/

namespace Elk

/-- A document field value: a string or an integer (Python `Any`, restricted
to the value shapes the program actually stores). -/
inductive Value where
  | str : String → Value
  | int : Int → Value
deriving DecidableEq, Repr

/-- A document: an insertion-ordered association list, modelling a Python dict. -/
abbrev Doc := List (String × Value)

/-- Lookup of a key in a document (Python `d[k]` / `k in d`), first match. -/
def dictGet : Doc → String → Option Value
  | [], _ => none
  | (k', v) :: t, k => if k' = k then some v else dictGet t k

/-- Whether a document binds a key. -/
def dictContains (d : Doc) (k : String) : Bool :=
  d.any (fun q => q.1 == k)

/-- Python dict assignment `d[k] = v`: replace in place when the key is
present, otherwise append at the end. -/
def dictInsert (d : Doc) (k : String) (v : Value) : Doc :=
  if dictContains d k then
    d.map (fun q => if q.1 = k then (k, v) else q)
  else
    d ++ [(k, v)]

/-- Python `d.update(e)`: assign every binding of `e` into `d`, in order. -/
def dictUpdate (d e : Doc) : Doc :=
  e.foldl (fun acc q => dictInsert acc q.1 q.2) d

@[simp]
theorem dictGet_nil (k : String) : dictGet [] k = none := rfl

@[simp]
theorem dictGet_cons (k' : String) (v : Value) (t : Doc) (k : String) :
    dictGet ((k', v) :: t) k = if k' = k then some v else dictGet t k := rfl

theorem dictContains_eq_false (d : Doc) (k : String) :
    dictContains d k = false ↔ ∀ q ∈ d, q.1 ≠ k := by
  simp [dictContains, List.any_eq_false]

theorem dictGet_eq_none (d : Doc) (k : String) :
    dictGet d k = none ↔ ∀ q ∈ d, q.1 ≠ k := by
  induction d with
  | nil => simp
  | cons q t ih =>
    obtain ⟨k', v⟩ := q
    by_cases h : k' = k <;> simp [h, ih]

theorem dictGet_map_replace (d : Doc) (k : String) (v : Value)
    (h : dictContains d k = true) :
    dictGet (d.map (fun q => if q.1 = k then (k, v) else q)) k = some v := by
  induction d with
  | nil => simp [dictContains] at h
  | cons q t ih =>
    obtain ⟨k', w⟩ := q
    by_cases hk : k' = k
    · simp [hk]
    · have ht : dictContains t k = true := by
        simpa [dictContains, hk] using h
      simp [hk, ih ht]

theorem dictGet_map_replace_ne (d : Doc) (k k' : String) (v : Value)
    (h : k' ≠ k) :
    dictGet (d.map (fun q => if q.1 = k then (k, v) else q)) k' = dictGet d k' := by
  induction d with
  | nil => simp
  | cons q t ih =>
    obtain ⟨k₀, w⟩ := q
    by_cases hk : k₀ = k
    · subst hk
      simp [Ne.symm h, fun hc : k₀ = k' => h hc.symm, ih]
    · by_cases hk' : k₀ = k' <;> simp [hk, hk', h, ih]

theorem dictGet_append_single (d : Doc) (k : String) (v : Value)
    (h : dictContains d k = false) :
    dictGet (d ++ [(k, v)]) k = some v := by
  induction d with
  | nil => simp
  | cons q t ih =>
    obtain ⟨k', w⟩ := q
    have hk : k' ≠ k := by
      have := (dictContains_eq_false _ _).mp h
      exact this (k', w) (List.mem_cons_self _ _)
    have ht : dictContains t k = false := by
      simpa [dictContains, hk] using h
    simp [hk, ih ht]

theorem dictGet_append_single_ne (d : Doc) (k k' : String) (v : Value)
    (h : k' ≠ k) :
    dictGet (d ++ [(k, v)]) k' = dictGet d k' := by
  induction d with
  | nil => simp [Ne.symm h]
  | cons q t ih =>
    obtain ⟨k₀, w⟩ := q
    by_cases hk : k₀ = k' <;> simp [hk, ih]

/-- Assignment makes the assigned key read back the assigned value. -/
theorem dictGet_insert_self (d : Doc) (k : String) (v : Value) :
    dictGet (dictInsert d k v) k = some v := by
  unfold dictInsert
  by_cases h : dictContains d k = true
  · simp [h, dictGet_map_replace d k v h]
  · have h' : dictContains d k = false := by simpa using h
    simp [h', dictGet_append_single d k v h']

/-- Assignment leaves every other key unchanged. -/
theorem dictGet_insert_ne (d : Doc) (k k' : String) (v : Value)
    (h : k' ≠ k) :
    dictGet (dictInsert d k v) k' = dictGet d k' := by
  unfold dictInsert
  by_cases hc : dictContains d k = true
  · simp [hc, dictGet_map_replace_ne d k k' v h]
  · have h' : dictContains d k = false := by simpa using hc
    simp [h', dictGet_append_single_ne d k k' v h]

/-- Merging a mapping that never binds `k` does not change `k`. -/
theorem dictGet_update_not_mem (d e : Doc) (k : String)
    (h : ∀ q ∈ e, q.1 ≠ k) :
    dictGet (dictUpdate d e) k = dictGet d k := by
  induction e generalizing d with
  | nil => rfl
  | cons q t ih =>
    have hq : q.1 ≠ k := h q (List.mem_cons_self _ _)
    have ht : ∀ q' ∈ t, q'.1 ≠ k := fun q' hq' => h q' (List.mem_cons_of_mem _ hq')
    show dictGet (dictUpdate (dictInsert d q.1 q.2) t) k = dictGet d k
    rw [ih (dictInsert d q.1 q.2) ht, dictGet_insert_ne d q.1 k q.2 (Ne.symm hq)]

/-- Merging a duplicate-free mapping makes every key it binds read back the
merged value (last-write-wins in favour of the merged mapping). -/
theorem dictGet_update_mem (d e : Doc) (k : String) (v : Value)
    (hnd : (e.map Prod.fst).Nodup) (h : dictGet e k = some v) :
    dictGet (dictUpdate d e) k = some v := by
  induction e generalizing d with
  | nil => simp at h
  | cons q t ih =>
    obtain ⟨k₀, v₀⟩ := q
    have hnd' : (t.map Prod.fst).Nodup := (List.nodup_cons.mp hnd).2
    have hk₀ : k₀ ∉ t.map Prod.fst := (List.nodup_cons.mp hnd).1
    show dictGet (dictUpdate (dictInsert d k₀ v₀) t) k = some v
    by_cases hk : k₀ = k
    · subst hk
      have hv : v = v₀ := by simpa using h.symm
      subst hv
      have hnot : ∀ q' ∈ t, q'.1 ≠ k₀ := by
        intro q' hq' hc
        exact hk₀ (hc ▸ List.mem_map_of_mem Prod.fst hq')
      rw [dictGet_update_not_mem _ t k₀ hnot, dictGet_insert_self]
    · have ht : dictGet t k = some v := by simpa [hk] using h
      exact ih (dictInsert d k₀ v₀) hnd' ht

/-- Merging preserves the presence of a key. -/
theorem dictGet_update_isSome (d e : Doc) (k : String)
    (h : (dictGet d k).isSome = true) :
    (dictGet (dictUpdate d e) k).isSome = true := by
  induction e generalizing d with
  | nil => exact h
  | cons q t ih =>
    show (dictGet (dictUpdate (dictInsert d q.1 q.2) t) k).isSome = true
    apply ih
    by_cases hk : q.1 = k
    · subst hk
      simp [dictGet_insert_self]
    · rw [dictGet_insert_ne d q.1 k q.2 (Ne.symm hk)]
      exact h

/-- A UTC instant, as produced by `datetime.now(timezone.utc)`. -/
structure UTCTime where
  year : Nat
  month : Nat
  day : Nat
  hour : Nat
  minute : Nat
  second : Nat
  microsecond : Nat
deriving DecidableEq, Repr

/-- Zero-pad a natural number to at least two digits. -/
def two_digits (n : Nat) : String :=
  if n < 10 then "0" ++ toString n else toString n

/-- Zero-pad a natural number to at least four digits. -/
def four_digits (n : Nat) : String :=
  if n < 10 then "000" ++ toString n
  else if n < 100 then "00" ++ toString n
  else if n < 1000 then "0" ++ toString n
  else toString n

/-- Zero-pad a natural number to at least six digits. -/
def six_digits (n : Nat) : String :=
  if n < 10 then "00000" ++ toString n
  else if n < 100 then "0000" ++ toString n
  else if n < 1000 then "000" ++ toString n
  else if n < 10000 then "00" ++ toString n
  else if n < 100000 then "0" ++ toString n
  else toString n

/-- Serialization of an aware UTC datetime by `datetime.isoformat()`:
`YYYY-MM-DDTHH:MM:SS[.ffffff]+00:00`, the fractional part present exactly
when the microsecond field is nonzero. -/
def isoformat (t : UTCTime) : String :=
  four_digits t.year ++ "-" ++ two_digits t.month ++ "-" ++ two_digits t.day
    ++ "T" ++ two_digits t.hour ++ ":" ++ two_digits t.minute ++ ":"
    ++ two_digits t.second
    ++ (if t.microsecond = 0 then "" else "." ++ six_digits t.microsecond)
    ++ "+00:00"

/-- The parameters of a single `log` / `log_async` call (the `index`
override is passed separately, as in the source). Defaults mirror the
Python keyword defaults. -/
structure LogParams where
  message : String
  level : String := "INFO"
  service : String := "python-app"
  log_type : String := "common"
  logger : Option String := none
  environment : Option String := none
  model : Option String := none
  method : Option String := none
  action : Option String := none
  expected_value : Option String := none
  actual_value : Option String := none
  result : Option String := none
  additional_fields : Option Doc := none
deriving Repr

/-- Python pattern `if x is not None: d[k] = x` for a string-valued field. -/
def insertOpt (d : Doc) (k : String) (v : Option String) : Doc :=
  match v with
  | some s => dictInsert d k (Value.str s)
  | none => d

/-- Lines 196-199 of the source: explicit `result` wins; otherwise, when
both `actual_value` and `expected_value` are present, derive
`"success"` / `"failure"` by string equality; otherwise leave the
document unchanged. -/
def with_result (d : Doc) (p : LogParams) : Doc :=
  match p.result with
  | some r => dictInsert d "result" (Value.str r)
  | none =>
    match p.actual_value, p.expected_value with
    | some a, some e =>
        dictInsert d "result" (Value.str (if a = e then "success" else "failure"))
    | _, _ => d

/-- Lines 180-199 of the source: the `log_type` dispatch adding the
category-specific fields. -/
def category_fields (d : Doc) (p : LogParams) : Doc :=
  if p.log_type = "common" then
    insertOpt (insertOpt d "logger" p.logger) "environment" p.environment
  else if p.log_type = "process" then
    with_result
      (insertOpt
        (insertOpt
          (insertOpt
            (insertOpt
              (insertOpt d "model" p.model)
              "method" p.method)
            "action" p.action)
          "expected_value" p.expected_value)
        "actual_value" p.actual_value)
      p
  else d

/-- Lines 172-177 of the source: the four mandatory fields, timestamp first. -/
def initial_entry (now : UTCTime) (p : LogParams) : Doc :=
  [("@timestamp", Value.str (isoformat now)),
   ("message", Value.str p.message),
   ("level", Value.str p.level),
   ("service", Value.str p.service)]

/-- `ElasticsearchLogger._create_log_entry` (lines 150-204): mandatory
fields, then the category dispatch, then — iff `additional_fields` is
truthy — the merge of the extra mapping. -/
def create_log_entry (now : UTCTime) (p : LogParams) : Doc :=
  match p.additional_fields with
  | none => category_fields (initial_entry now p) p
  | some af =>
    if af.isEmpty then category_fields (initial_entry now p) p
    else dictUpdate (category_fields (initial_entry now p) p) af

/-- Whether the extra mapping of a call binds the key `k`. -/
def extraMentions (p : LogParams) (k : String) : Bool :=
  match p.additional_fields with
  | none => false
  | some e => dictContains e k

/-- The configuration state of `ElasticsearchLogger` (the two datastore
clients are modelled abstractly through `WriteCall` / `close`). -/
structure ElasticsearchLogger where
  default_index : String := "mh-logs"
deriving DecidableEq, Repr

/-- Which of the two datastore handles a call goes through. -/
inductive Handle where
  | blocking
  | nonblocking
deriving DecidableEq, Repr

/-- The write a `log` / `log_async` call issues to the datastore. -/
structure WriteCall where
  handle : Handle
  index : String
  document : Doc
deriving DecidableEq, Repr

/-- Python string truthiness in `index or default`: the left string when
it is non-empty, otherwise the right one (also taken when `index` is None). -/
def pyOrStr (a : Option String) (b : String) : String :=
  match a with
  | some s => if s = "" then b else s
  | none => b

/-- `ElasticsearchLogger.log` (lines 35-97): build the entry, resolve
`target_index = index or f"{default_index}-{log_type}"`, raise ValueError
when the target is empty, else issue the write through the blocking handle. -/
def ElasticsearchLogger.log (self : ElasticsearchLogger) (now : UTCTime)
    (p : LogParams) (index : Option String) : Except String WriteCall :=
  let log_entry := create_log_entry now p
  let target_index := pyOrStr index (self.default_index ++ "-" ++ p.log_type)
  if target_index = "" then
    Except.error "未指定索引且未设置默认索引"
  else
    Except.ok { handle := Handle.blocking, index := target_index, document := log_entry }

/-- `ElasticsearchLogger.log_async` (lines 99-148): identical to `log`
except that the write goes through the non-blocking handle. -/
def ElasticsearchLogger.log_async (self : ElasticsearchLogger) (now : UTCTime)
    (p : LogParams) (index : Option String) : Except String WriteCall :=
  let log_entry := create_log_entry now p
  let target_index := pyOrStr index (self.default_index ++ "-" ++ p.log_type)
  if target_index = "" then
    Except.error "未指定索引且未设置默认索引"
  else
    Except.ok { handle := Handle.nonblocking, index := target_index, document := log_entry }

/-- Environment of one `close()` call: which of the two underlying client
`close` calls raises, and with what error. -/
structure CloseBehavior where
  es_close_error : Option String := none
  async_es_close_error : Option String := none
deriving DecidableEq, Repr

/-- `ElasticsearchLogger.close` (lines 206-209): `self.es.close()` then
`await self.async_es.close()`, plain sequencing with Python exception
propagation (a raise in the first statement skips the second). Returns the
handles whose release was attempted, in order, and the propagated error. -/
def ElasticsearchLogger.close (_self : ElasticsearchLogger) (b : CloseBehavior) :
    List Handle × Option String :=
  match b.es_close_error with
  | some e => ([Handle.blocking], some e)
  | none =>
    match b.async_es_close_error with
    | some e => ([Handle.blocking, Handle.nonblocking], some e)
    | none => ([Handle.blocking, Handle.nonblocking], none)

theorem dictGet_insertOpt_ne (d : Doc) (k k' : String) (v : Option String)
    (h : k' ≠ k) :
    dictGet (insertOpt d k v) k' = dictGet d k' := by
  cases v with
  | none => rfl
  | some s => exact dictGet_insert_ne d k k' (Value.str s) h

theorem dictGet_insertOpt_self (d : Doc) (k : String) (v : Option String) :
    dictGet (insertOpt d k v) k =
      match v with
      | some s => some (Value.str s)
      | none => dictGet d k := by
  cases v with
  | none => rfl
  | some s => exact dictGet_insert_self d k (Value.str s)

theorem dictGet_with_result_ne (d : Doc) (p : LogParams) (k : String)
    (h : k ≠ "result") :
    dictGet (with_result d p) k = dictGet d k := by
  unfold with_result
  cases p.result with
  | some r => exact dictGet_insert_ne d "result" k (Value.str r) h
  | none =>
    cases p.actual_value with
    | none => cases p.expected_value <;> rfl
    | some a =>
      cases p.expected_value with
      | none => rfl
      | some e => exact dictGet_insert_ne d "result" k _ h

theorem dictGet_with_result_self (d : Doc) (p : LogParams) :
    dictGet (with_result d p) "result" =
      match p.result with
      | some r => some (Value.str r)
      | none =>
        match p.actual_value, p.expected_value with
        | some a, some e =>
            some (Value.str (if a = e then "success" else "failure"))
        | _, _ => dictGet d "result" := by
  unfold with_result
  cases p.result with
  | some r => exact dictGet_insert_self d "result" (Value.str r)
  | none =>
    cases p.actual_value with
    | none => cases p.expected_value <;> rfl
    | some a =>
      cases p.expected_value with
      | none => rfl
      | some e => exact dictGet_insert_self d "result" _

/-- The category dispatch never writes any key outside the eight
category-specific field names. -/
theorem dictGet_category_fields_other (d : Doc) (p : LogParams) (k : String)
    (h1 : k ≠ "logger") (h2 : k ≠ "environment") (h3 : k ≠ "model")
    (h4 : k ≠ "method") (h5 : k ≠ "action") (h6 : k ≠ "expected_value")
    (h7 : k ≠ "actual_value") (h8 : k ≠ "result") :
    dictGet (category_fields d p) k = dictGet d k := by
  unfold category_fields
  by_cases hc : p.log_type = "common"
  · rw [if_pos hc, dictGet_insertOpt_ne _ _ _ _ h2, dictGet_insertOpt_ne _ _ _ _ h1]
  · by_cases hp : p.log_type = "process"
    · rw [if_neg hc, if_pos hp, dictGet_with_result_ne _ _ _ h8,
        dictGet_insertOpt_ne _ _ _ _ h7, dictGet_insertOpt_ne _ _ _ _ h6,
        dictGet_insertOpt_ne _ _ _ _ h5, dictGet_insertOpt_ne _ _ _ _ h4,
        dictGet_insertOpt_ne _ _ _ _ h3]
    · rw [if_neg hc, if_neg hp]

theorem dictGet_category_fields_logger (d : Doc) (p : LogParams) :
    dictGet (category_fields d p) "logger" =
      if p.log_type = "common" then
        match p.logger with
        | some l => some (Value.str l)
        | none => dictGet d "logger"
      else dictGet d "logger" := by
  unfold category_fields
  by_cases hc : p.log_type = "common"
  · rw [if_pos hc, if_pos hc, dictGet_insertOpt_ne _ _ _ _ (by decide),
      dictGet_insertOpt_self]
  · by_cases hp : p.log_type = "process"
    · rw [if_neg hc, if_neg hc, if_pos hp, dictGet_with_result_ne _ _ _ (by decide),
        dictGet_insertOpt_ne _ _ _ _ (by decide), dictGet_insertOpt_ne _ _ _ _ (by decide),
        dictGet_insertOpt_ne _ _ _ _ (by decide), dictGet_insertOpt_ne _ _ _ _ (by decide),
        dictGet_insertOpt_ne _ _ _ _ (by decide)]
    · rw [if_neg hc, if_neg hc, if_neg hp]

theorem dictGet_category_fields_environment (d : Doc) (p : LogParams) :
    dictGet (category_fields d p) "environment" =
      if p.log_type = "common" then
        match p.environment with
        | some e => some (Value.str e)
        | none => dictGet d "environment"
      else dictGet d "environment" := by
  unfold category_fields
  by_cases hc : p.log_type = "common"
  · rw [if_pos hc, if_pos hc, dictGet_insertOpt_self,
      dictGet_insertOpt_ne _ _ _ _ (by decide)]
  · by_cases hp : p.log_type = "process"
    · rw [if_neg hc, if_neg hc, if_pos hp, dictGet_with_result_ne _ _ _ (by decide),
        dictGet_insertOpt_ne _ _ _ _ (by decide), dictGet_insertOpt_ne _ _ _ _ (by decide),
        dictGet_insertOpt_ne _ _ _ _ (by decide), dictGet_insertOpt_ne _ _ _ _ (by decide),
        dictGet_insertOpt_ne _ _ _ _ (by decide)]
    · rw [if_neg hc, if_neg hc, if_neg hp]

theorem dictGet_category_fields_model (d : Doc) (p : LogParams) :
    dictGet (category_fields d p) "model" =
      if p.log_type = "process" then
        match p.model with
        | some m => some (Value.str m)
        | none => dictGet d "model"
      else dictGet d "model" := by
  unfold category_fields
  by_cases hc : p.log_type = "common"
  · have hp : p.log_type ≠ "process" := by rw [hc]; decide
    rw [if_pos hc, if_neg hp, dictGet_insertOpt_ne _ _ _ _ (by decide),
      dictGet_insertOpt_ne _ _ _ _ (by decide)]
  · by_cases hp : p.log_type = "process"
    · rw [if_neg hc, if_pos hp, if_pos hp, dictGet_with_result_ne _ _ _ (by decide),
        dictGet_insertOpt_ne _ _ _ _ (by decide), dictGet_insertOpt_ne _ _ _ _ (by decide),
        dictGet_insertOpt_ne _ _ _ _ (by decide), dictGet_insertOpt_ne _ _ _ _ (by decide),
        dictGet_insertOpt_self]
    · rw [if_neg hc, if_neg hp, if_neg hp]

theorem dictGet_category_fields_method (d : Doc) (p : LogParams) :
    dictGet (category_fields d p) "method" =
      if p.log_type = "process" then
        match p.method with
        | some m => some (Value.str m)
        | none => dictGet d "method"
      else dictGet d "method" := by
  unfold category_fields
  by_cases hc : p.log_type = "common"
  · have hp : p.log_type ≠ "process" := by rw [hc]; decide
    rw [if_pos hc, if_neg hp, dictGet_insertOpt_ne _ _ _ _ (by decide),
      dictGet_insertOpt_ne _ _ _ _ (by decide)]
  · by_cases hp : p.log_type = "process"
    · rw [if_neg hc, if_pos hp, if_pos hp, dictGet_with_result_ne _ _ _ (by decide),
        dictGet_insertOpt_ne _ _ _ _ (by decide), dictGet_insertOpt_ne _ _ _ _ (by decide),
        dictGet_insertOpt_ne _ _ _ _ (by decide), dictGet_insertOpt_self,
        dictGet_insertOpt_ne d "model" "method" p.model (by decide)]
    · rw [if_neg hc, if_neg hp, if_neg hp]

theorem dictGet_category_fields_action (d : Doc) (p : LogParams) :
    dictGet (category_fields d p) "action" =
      if p.log_type = "process" then
        match p.action with
        | some a => some (Value.str a)
        | none => dictGet d "action"
      else dictGet d "action" := by
  unfold category_fields
  by_cases hc : p.log_type = "common"
  · have hp : p.log_type ≠ "process" := by rw [hc]; decide
    rw [if_pos hc, if_neg hp, dictGet_insertOpt_ne _ _ _ _ (by decide),
      dictGet_insertOpt_ne _ _ _ _ (by decide)]
  · by_cases hp : p.log_type = "process"
    · rw [if_neg hc, if_pos hp, if_pos hp, dictGet_with_result_ne _ _ _ (by decide),
        dictGet_insertOpt_ne _ _ _ _ (by decide), dictGet_insertOpt_ne _ _ _ _ (by decide),
        dictGet_insertOpt_self,
        dictGet_insertOpt_ne _ "method" "action" p.method (by decide),
        dictGet_insertOpt_ne d "model" "action" p.model (by decide)]
    · rw [if_neg hc, if_neg hp, if_neg hp]

theorem dictGet_category_fields_expected (d : Doc) (p : LogParams) :
    dictGet (category_fields d p) "expected_value" =
      if p.log_type = "process" then
        match p.expected_value with
        | some e => some (Value.str e)
        | none => dictGet d "expected_value"
      else dictGet d "expected_value" := by
  unfold category_fields
  by_cases hc : p.log_type = "common"
  · have hp : p.log_type ≠ "process" := by rw [hc]; decide
    rw [if_pos hc, if_neg hp, dictGet_insertOpt_ne _ _ _ _ (by decide),
      dictGet_insertOpt_ne _ _ _ _ (by decide)]
  · by_cases hp : p.log_type = "process"
    · rw [if_neg hc, if_pos hp, if_pos hp, dictGet_with_result_ne _ _ _ (by decide),
        dictGet_insertOpt_ne _ _ _ _ (by decide), dictGet_insertOpt_self,
        dictGet_insertOpt_ne _ "action" "expected_value" p.action (by decide),
        dictGet_insertOpt_ne _ "method" "expected_value" p.method (by decide),
        dictGet_insertOpt_ne d "model" "expected_value" p.model (by decide)]
    · rw [if_neg hc, if_neg hp, if_neg hp]

theorem dictGet_category_fields_actual (d : Doc) (p : LogParams) :
    dictGet (category_fields d p) "actual_value" =
      if p.log_type = "process" then
        match p.actual_value with
        | some a => some (Value.str a)
        | none => dictGet d "actual_value"
      else dictGet d "actual_value" := by
  unfold category_fields
  by_cases hc : p.log_type = "common"
  · have hp : p.log_type ≠ "process" := by rw [hc]; decide
    rw [if_pos hc, if_neg hp, dictGet_insertOpt_ne _ _ _ _ (by decide),
      dictGet_insertOpt_ne _ _ _ _ (by decide)]
  · by_cases hp : p.log_type = "process"
    · rw [if_neg hc, if_pos hp, if_pos hp, dictGet_with_result_ne _ _ _ (by decide),
        dictGet_insertOpt_self,
        dictGet_insertOpt_ne _ "expected_value" "actual_value" p.expected_value (by decide),
        dictGet_insertOpt_ne _ "action" "actual_value" p.action (by decide),
        dictGet_insertOpt_ne _ "method" "actual_value" p.method (by decide),
        dictGet_insertOpt_ne d "model" "actual_value" p.model (by decide)]
    · rw [if_neg hc, if_neg hp, if_neg hp]

theorem dictGet_category_fields_result (d : Doc) (p : LogParams) :
    dictGet (category_fields d p) "result" =
      if p.log_type = "common" then dictGet d "result"
      else if p.log_type = "process" then
        match p.result with
        | some r => some (Value.str r)
        | none =>
          match p.actual_value, p.expected_value with
          | some a, some e =>
              some (Value.str (if a = e then "success" else "failure"))
          | _, _ => dictGet d "result"
      else dictGet d "result" := by
  unfold category_fields
  by_cases hc : p.log_type = "common"
  · rw [if_pos hc, if_pos hc, dictGet_insertOpt_ne _ _ _ _ (by decide),
      dictGet_insertOpt_ne _ _ _ _ (by decide)]
  · by_cases hp : p.log_type = "process"
    · have hch : dictGet
          (insertOpt (insertOpt (insertOpt (insertOpt (insertOpt d "model" p.model)
            "method" p.method) "action" p.action) "expected_value" p.expected_value)
            "actual_value" p.actual_value) "result" = dictGet d "result" := by
        rw [dictGet_insertOpt_ne _ _ _ _ (by decide), dictGet_insertOpt_ne _ _ _ _ (by decide),
          dictGet_insertOpt_ne _ _ _ _ (by decide), dictGet_insertOpt_ne _ _ _ _ (by decide),
          dictGet_insertOpt_ne _ _ _ _ (by decide)]
      rw [if_neg hc, if_neg hc, if_pos hp, if_pos hp, dictGet_with_result_self, hch]
    · rw [if_neg hc, if_neg hc, if_neg hp, if_neg hp]

theorem dictGet_initial_timestamp (now : UTCTime) (p : LogParams) :
    dictGet (initial_entry now p) "@timestamp" = some (Value.str (isoformat now)) := rfl

theorem dictGet_initial_message (now : UTCTime) (p : LogParams) :
    dictGet (initial_entry now p) "message" = some (Value.str p.message) := rfl

theorem dictGet_initial_level (now : UTCTime) (p : LogParams) :
    dictGet (initial_entry now p) "level" = some (Value.str p.level) := rfl

theorem dictGet_initial_service (now : UTCTime) (p : LogParams) :
    dictGet (initial_entry now p) "service" = some (Value.str p.service) := rfl

theorem dictGet_initial_other (now : UTCTime) (p : LogParams) (k : String)
    (h1 : k ≠ "@timestamp") (h2 : k ≠ "message") (h3 : k ≠ "level")
    (h4 : k ≠ "service") :
    dictGet (initial_entry now p) k = none := by
  unfold initial_entry
  rw [dictGet_cons, if_neg (Ne.symm h1), dictGet_cons, if_neg (Ne.symm h2),
    dictGet_cons, if_neg (Ne.symm h3), dictGet_cons, if_neg (Ne.symm h4), dictGet_nil]

/-- When the extra mapping does not bind `k`, the final document reads `k`
exactly as the pre-merge document does. -/
theorem dictGet_create_no_extra (now : UTCTime) (p : LogParams) (k : String)
    (hx : extraMentions p k = false) :
    dictGet (create_log_entry now p) k =
      dictGet (category_fields (initial_entry now p) p) k := by
  unfold create_log_entry
  unfold extraMentions at hx
  cases haf : p.additional_fields with
  | none => rfl
  | some af =>
    rw [haf] at hx
    by_cases he : af.isEmpty
    · simp [he]
    · simp only [he, if_neg]
      exact dictGet_update_not_mem _ af k ((dictContains_eq_false af k).mp hx)

/-- The serialized timestamp always ends in the UTC offset and is non-empty. -/
theorem isoformat_ne_empty (t : UTCTime) : isoformat t ≠ "" := by
  unfold isoformat
  intro h
  have hlen := congrArg String.length h
  simp only [String.length_append] at hlen
  have h6 : ("+00:00" : String).length = 6 := rfl
  have h0 : ("" : String).length = 0 := rfl
  omega

/-- A string of the shape `a ++ "-" ++ b` is never empty. -/
theorem hyphen_concat_ne_empty (a b : String) : a ++ "-" ++ b ≠ "" := by
  intro h
  have hlen := congrArg String.length h
  simp only [String.length_append] at hlen
  have h1 : ("-" : String).length = 1 := rfl
  have h0 : ("" : String).length = 0 := rfl
  omega

/-- The resolved target index is never empty: either the override is
non-empty, or the fallback contains a hyphen. -/
theorem pyOrStr_hyphen_ne_empty (idx : Option String) (a b : String) :
    pyOrStr idx (a ++ "-" ++ b) ≠ "" := by
  cases idx with
  | none => exact hyphen_concat_ne_empty a b
  | some s =>
    by_cases hs : s = ""
    · show (if s = "" then a ++ "-" ++ b else s) ≠ ""
      rw [if_pos hs]
      exact hyphen_concat_ne_empty a b
    · show (if s = "" then a ++ "-" ++ b else s) ≠ ""
      rw [if_neg hs]
      exact hs

/-- Presence of a key survives the extra-field merge, whatever the merge
writes. -/
theorem create_isSome (now : UTCTime) (p : LogParams) (k : String)
    (h : (dictGet (category_fields (initial_entry now p) p) k).isSome = true) :
    (dictGet (create_log_entry now p) k).isSome = true := by
  unfold create_log_entry
  cases p.additional_fields with
  | none => exact h
  | some af =>
    show (dictGet
        (if af.isEmpty then category_fields (initial_entry now p) p
         else dictUpdate (category_fields (initial_entry now p) p) af) k).isSome = true
    by_cases he : af.isEmpty
    · rw [if_pos he]
      exact h
    · rw [if_neg he]
      exact dictGet_update_isSome _ af k h

/-- A fixed clock value used for the concrete evaluations. -/
def exNow : UTCTime := ⟨2024, 1, 2, 3, 4, 5, 0⟩

/-- Claim C10: with no override the resolved target index is the
concatenation of the default index, a hyphen, and the log type, hence
non-empty for every default — so the empty-index ValueError branch of
`log` and `log_async` is unreachable on all inputs. -/
theorem C10_error_branch_unreachable (self : ElasticsearchLogger)
    (now : UTCTime) (p : LogParams) (index : Option String) :
    self.default_index ++ "-" ++ p.log_type ≠ "" ∧
    (∀ e, ElasticsearchLogger.log self now p index ≠ Except.error e) ∧
    (∀ e, ElasticsearchLogger.log_async self now p index ≠ Except.error e) := by
  have ht := pyOrStr_hyphen_ne_empty index self.default_index p.log_type
  refine ⟨hyphen_concat_ne_empty _ _, fun e => ?_, fun e => ?_⟩
  · simp [ElasticsearchLogger.log, ht]
  · simp [ElasticsearchLogger.log_async, ht]

/-- Witness for C10 at a concrete configuration and call. -/
theorem C10_error_branch_unreachable_witness :
    ElasticsearchLogger.log { default_index := "mh-logs" } exNow
      { message := "m" } none ≠ Except.error "boom" :=
  (C10_error_branch_unreachable { default_index := "mh-logs" } exNow
    { message := "m" } none).2.1 "boom"

/-- Claim C1 (the code at the claimed failing input): with an empty default
index and no override, `log` does not raise; it resolves the target index
to `"-common"` and issues the write through the blocking handle. -/
theorem C1_empty_default_still_writes :
    ElasticsearchLogger.log { default_index := "" } exNow { message := "m" } none =
      Except.ok
        { handle := Handle.blocking,
          index := "-common",
          document :=
            [("@timestamp", Value.str (isoformat exNow)),
             ("message", Value.str "m"),
             ("level", Value.str "INFO"),
             ("service", Value.str "python-app")] } := rfl

/-- Claim C2 counterexample: when closing the blocking handle raises, the
non-blocking handle's release is NOT attempted, contradicting the claim
that both releases are attempted on every execution of `close`. -/
theorem C2_counterexample :
    (ElasticsearchLogger.close { default_index := "mh-logs" }
        { es_close_error := some "boom" }).1 = [Handle.blocking] ∧
    Handle.nonblocking ∉
      (ElasticsearchLogger.close { default_index := "mh-logs" }
        { es_close_error := some "boom" }).1 := by
  exact ⟨rfl, by decide⟩

/-- Claim C2 (amended): `close` releases the blocking handle first and then
the non-blocking one, and any close error propagates; but when the blocking
close raises, the non-blocking release is skipped (no try/finally in the
source), so both releases are attempted only when the blocking close
succeeds. -/
theorem C2_close_order_and_propagation (self : ElasticsearchLogger)
    (b : CloseBehavior) :
    (b.es_close_error = none →
      (self.close b).1 = [Handle.blocking, Handle.nonblocking] ∧
      (self.close b).2 = b.async_es_close_error) ∧
    (∀ e, b.es_close_error = some e →
      (self.close b).1 = [Handle.blocking] ∧ (self.close b).2 = some e) := by
  obtain ⟨es, aes⟩ := b
  constructor
  · intro h
    cases h
    cases aes <;> simp [ElasticsearchLogger.close]
  · intro e h
    cases h
    simp [ElasticsearchLogger.close]

/-- Witness for C2 at concrete close behaviours. -/
theorem C2_close_order_and_propagation_witness :
    ((ElasticsearchLogger.close { default_index := "mh-logs" }
        { es_close_error := none, async_es_close_error := none }).1 =
      [Handle.blocking, Handle.nonblocking] ∧
     (ElasticsearchLogger.close { default_index := "mh-logs" }
        { es_close_error := none, async_es_close_error := none }).2 = none) ∧
    ((ElasticsearchLogger.close { default_index := "mh-logs" }
        { es_close_error := some "boom", async_es_close_error := none }).1 =
      [Handle.blocking] ∧
     (ElasticsearchLogger.close { default_index := "mh-logs" }
        { es_close_error := some "boom", async_es_close_error := none }).2 =
      some "boom") :=
  ⟨(C2_close_order_and_propagation { default_index := "mh-logs" }
      { es_close_error := none, async_es_close_error := none }).1 rfl,
   (C2_close_order_and_propagation { default_index := "mh-logs" }
      { es_close_error := some "boom", async_es_close_error := none }).2 "boom" rfl⟩

/-- Claim C5: a provided non-empty override is used verbatim as the target
index; otherwise — no override at all, or an override provided but empty
(falsy under Python `or`) — the target index is the default index, a
hyphen, and the log type, for `log` and `log_async` alike. -/
theorem C5_index_resolution (self : ElasticsearchLogger) (now : UTCTime)
    (p : LogParams) :
    (∀ s, s ≠ "" →
      ElasticsearchLogger.log self now p (some s) =
        Except.ok { handle := Handle.blocking, index := s,
                    document := create_log_entry now p } ∧
      ElasticsearchLogger.log_async self now p (some s) =
        Except.ok { handle := Handle.nonblocking, index := s,
                    document := create_log_entry now p }) ∧
    (ElasticsearchLogger.log self now p none =
      Except.ok { handle := Handle.blocking,
                  index := self.default_index ++ "-" ++ p.log_type,
                  document := create_log_entry now p } ∧
     ElasticsearchLogger.log_async self now p none =
      Except.ok { handle := Handle.nonblocking,
                  index := self.default_index ++ "-" ++ p.log_type,
                  document := create_log_entry now p }) ∧
    (ElasticsearchLogger.log self now p (some "") =
      Except.ok { handle := Handle.blocking,
                  index := self.default_index ++ "-" ++ p.log_type,
                  document := create_log_entry now p } ∧
     ElasticsearchLogger.log_async self now p (some "") =
      Except.ok { handle := Handle.nonblocking,
                  index := self.default_index ++ "-" ++ p.log_type,
                  document := create_log_entry now p }) := by
  have hd := hyphen_concat_ne_empty self.default_index p.log_type
  refine ⟨fun s hs => ⟨?_, ?_⟩, ⟨?_, ?_⟩, ⟨?_, ?_⟩⟩
  · simp [ElasticsearchLogger.log, pyOrStr, hs]
  · simp [ElasticsearchLogger.log_async, pyOrStr, hs]
  · simp [ElasticsearchLogger.log, pyOrStr, hd]
  · simp [ElasticsearchLogger.log_async, pyOrStr, hd]
  · simp [ElasticsearchLogger.log, pyOrStr, hd]
  · simp [ElasticsearchLogger.log_async, pyOrStr, hd]

/-- Witness for C5: default "mh-logs" with log type "process" resolves to
"mh-logs-process" with no override and with an empty override alike;
override "custom-idx" is used exactly. -/
theorem C5_index_resolution_witness :
    ElasticsearchLogger.log { default_index := "mh-logs" } exNow
      { message := "m", log_type := "process" } none =
      Except.ok { handle := Handle.blocking, index := "mh-logs-process",
                  document := create_log_entry exNow
                    { message := "m", log_type := "process" } } ∧
    ElasticsearchLogger.log { default_index := "mh-logs" } exNow
      { message := "m", log_type := "process" } (some "custom-idx") =
      Except.ok { handle := Handle.blocking, index := "custom-idx",
                  document := create_log_entry exNow
                    { message := "m", log_type := "process" } } ∧
    ElasticsearchLogger.log { default_index := "mh-logs" } exNow
      { message := "m", log_type := "process" } (some "") =
      Except.ok { handle := Handle.blocking, index := "mh-logs-process",
                  document := create_log_entry exNow
                    { message := "m", log_type := "process" } } :=
  ⟨(C5_index_resolution { default_index := "mh-logs" } exNow
      { message := "m", log_type := "process" }).2.1.1,
   ((C5_index_resolution { default_index := "mh-logs" } exNow
      { message := "m", log_type := "process" }).1 "custom-idx" (by decide)).1,
   (C5_index_resolution { default_index := "mh-logs" } exNow
      { message := "m", log_type := "process" }).2.2.1⟩

/-- Claim C8: for identical parameters and a fixed clock, `log` and
`log_async` resolve the same index and build the same document, differing
only in the handle: `log` always writes through the blocking handle and
`log_async` through the non-blocking one. -/
theorem C8_sync_async_agreement (self : ElasticsearchLogger) (now : UTCTime)
    (p : LogParams) (index : Option String) :
    ElasticsearchLogger.log_async self now p index =
      Except.map (fun w => { w with handle := Handle.nonblocking })
        (ElasticsearchLogger.log self now p index) ∧
    Except.map WriteCall.handle (ElasticsearchLogger.log self now p index) =
      Except.ok Handle.blocking ∧
    Except.map WriteCall.handle (ElasticsearchLogger.log_async self now p index) =
      Except.ok Handle.nonblocking := by
  have ht := pyOrStr_hyphen_ne_empty index self.default_index p.log_type
  refine ⟨?_, ?_, ?_⟩ <;>
    simp [ElasticsearchLogger.log, ElasticsearchLogger.log_async, ht, Except.map]

/-- A process-category call whose extra mapping binds "result" although no
result-related parameter is supplied. -/
def pExtraResult : LogParams :=
  { message := "m", log_type := "process",
    additional_fields := some [("result", Value.str "x")] }

/-- Claim C3 counterexample: with no explicit result and no expected/actual
values, the claim says the result key is absent; but an extra mapping
binding "result" makes the key present, so the claim fails as stated over
all build inputs. -/
theorem C3_counterexample :
    pExtraResult.log_type = "process" ∧ pExtraResult.result = none ∧
    pExtraResult.expected_value = none ∧ pExtraResult.actual_value = none ∧
    dictGet (create_log_entry exNow pExtraResult) "result" = some (Value.str "x") :=
  ⟨rfl, rfl, rfl, rfl, rfl⟩

/-- Claim C3 (amended): for process-category builds whose extra mapping
does not bind "result", the document's result field is the explicitly
supplied result when present (even if expected and actual are equal), else
"success"/"failure" by string equality when both expected and actual are
supplied, else absent. -/
theorem C3_result_rule (now : UTCTime) (p : LogParams)
    (ht : p.log_type = "process") (hx : extraMentions p "result" = false) :
    dictGet (create_log_entry now p) "result" =
      match p.result with
      | some r => some (Value.str r)
      | none =>
        match p.actual_value, p.expected_value with
        | some a, some e =>
            some (Value.str (if a = e then "success" else "failure"))
        | _, _ => none := by
  have hc : p.log_type ≠ "common" := by rw [ht]; decide
  rw [dictGet_create_no_extra now p "result" hx, dictGet_category_fields_result,
    if_neg hc, if_pos ht,
    dictGet_initial_other now p "result" (by decide) (by decide) (by decide) (by decide)]

/-- Witness for C3: expected "0.95" and actual "0.96" with no explicit
result derive "failure". -/
theorem C3_result_rule_witness :
    dictGet
      (create_log_entry exNow
        { message := "m", log_type := "process",
          expected_value := some "0.95", actual_value := some "0.96" })
      "result" = some (Value.str "failure") :=
  C3_result_rule exNow
    { message := "m", log_type := "process",
      expected_value := some "0.95", actual_value := some "0.96" } rfl rfl

/-- Claim C4: the extra mapping is merged last with last-write-wins per
key — every key it binds reads back the extra value (even mandatory keys),
and every key it does not bind reads exactly as in the pre-merge document. -/
theorem C4_extra_merge_last_write_wins (now : UTCTime) (p : LogParams)
    (e : Doc) (haf : p.additional_fields = some e)
    (hnd : (e.map Prod.fst).Nodup) :
    (∀ k v, dictGet e k = some v →
      dictGet (create_log_entry now p) k = some v) ∧
    (∀ k, dictGet e k = none →
      dictGet (create_log_entry now p) k =
        dictGet (category_fields (initial_entry now p) p) k) := by
  constructor
  · intro k v hv
    unfold create_log_entry
    rw [haf]
    show dictGet
        (if e.isEmpty then category_fields (initial_entry now p) p
         else dictUpdate (category_fields (initial_entry now p) p) e) k = some v
    have hne : e.isEmpty = false := by
      cases e with
      | nil => simp at hv
      | cons q t => rfl
    rw [if_neg (by rw [hne]; decide)]
    exact dictGet_update_mem _ e k v hnd hv
  · intro k hk
    unfold create_log_entry
    rw [haf]
    show dictGet
        (if e.isEmpty then category_fields (initial_entry now p) p
         else dictUpdate (category_fields (initial_entry now p) p) e) k =
      dictGet (category_fields (initial_entry now p) p) k
    by_cases he : e.isEmpty
    · rw [if_pos he]
    · rw [if_neg he]
      exact dictGet_update_not_mem _ e k ((dictGet_eq_none e k).mp hk)

/-- A call whose extra mapping overrides the mandatory "message" field and
adds a fresh key. -/
def pExtraMsg : LogParams :=
  { message := "hi",
    additional_fields := some [("message", Value.str "overridden"),
                               ("user_id", Value.int 123)] }

/-- Witness for C4: the extra value overrides "message" and the untouched
"level" key reads as in the pre-merge document. -/
theorem C4_extra_merge_last_write_wins_witness :
    dictGet (create_log_entry exNow pExtraMsg) "message" =
      some (Value.str "overridden") ∧
    dictGet (create_log_entry exNow pExtraMsg) "level" =
      dictGet (category_fields (initial_entry exNow pExtraMsg) pExtraMsg) "level" :=
  ⟨(C4_extra_merge_last_write_wins exNow pExtraMsg
      [("message", Value.str "overridden"), ("user_id", Value.int 123)]
      rfl (by decide)).1 "message" (Value.str "overridden") rfl,
   (C4_extra_merge_last_write_wins exNow pExtraMsg
      [("message", Value.str "overridden"), ("user_id", Value.int 123)]
      rfl (by decide)).2 "level" rfl⟩

/-- Claim C6: category isolation — under category "common" none of the six
process fields appears (even when supplied), and under category "process"
neither "logger" nor "environment" appears (even when supplied); keys the
extra mapping binds are exempt. -/
theorem C6_category_isolation (now : UTCTime) (p : LogParams) (k : String) :
    (p.log_type = "common" →
      k ∈ ["model", "method", "action", "expected_value", "actual_value", "result"] →
      extraMentions p k = false →
      dictGet (create_log_entry now p) k = none) ∧
    (p.log_type = "process" →
      k ∈ ["logger", "environment"] →
      extraMentions p k = false →
      dictGet (create_log_entry now p) k = none) := by
  constructor
  · intro hc hk hx
    have hp : p.log_type ≠ "process" := by rw [hc]; decide
    rw [dictGet_create_no_extra now p k hx]
    simp only [List.mem_cons, List.not_mem_nil, or_false] at hk
    rcases hk with rfl | rfl | rfl | rfl | rfl | rfl
    · rw [dictGet_category_fields_model, if_neg hp,
        dictGet_initial_other now p _ (by decide) (by decide) (by decide) (by decide)]
    · rw [dictGet_category_fields_method, if_neg hp,
        dictGet_initial_other now p _ (by decide) (by decide) (by decide) (by decide)]
    · rw [dictGet_category_fields_action, if_neg hp,
        dictGet_initial_other now p _ (by decide) (by decide) (by decide) (by decide)]
    · rw [dictGet_category_fields_expected, if_neg hp,
        dictGet_initial_other now p _ (by decide) (by decide) (by decide) (by decide)]
    · rw [dictGet_category_fields_actual, if_neg hp,
        dictGet_initial_other now p _ (by decide) (by decide) (by decide) (by decide)]
    · rw [dictGet_category_fields_result, if_pos hc,
        dictGet_initial_other now p _ (by decide) (by decide) (by decide) (by decide)]
  · intro hp hk hx
    have hc : p.log_type ≠ "common" := by rw [hp]; decide
    rw [dictGet_create_no_extra now p k hx]
    simp only [List.mem_cons, List.not_mem_nil, or_false] at hk
    rcases hk with rfl | rfl
    · rw [dictGet_category_fields_logger, if_neg hc,
        dictGet_initial_other now p _ (by decide) (by decide) (by decide) (by decide)]
    · rw [dictGet_category_fields_environment, if_neg hc,
        dictGet_initial_other now p _ (by decide) (by decide) (by decide) (by decide)]

/-- Witness for C6: a supplied model under category "common" and a supplied
logger under category "process" are both dropped. -/
theorem C6_category_isolation_witness :
    dictGet (create_log_entry exNow
      { message := "m", log_type := "common", model := some "nlp" }) "model" = none ∧
    dictGet (create_log_entry exNow
      { message := "m", log_type := "process", logger := some "main" }) "logger" = none :=
  ⟨(C6_category_isolation exNow
      { message := "m", log_type := "common", model := some "nlp" } "model").1
      rfl (by decide) rfl,
   (C6_category_isolation exNow
      { message := "m", log_type := "process", logger := some "main" } "logger").2
      rfl (by decide) rfl⟩

/-- Claim C7 counterexample: an extra mapping binding "message" makes the
final document's message differ from the supplied one, so `build` does not
map "message" to exactly the supplied value on every valid input. -/
theorem C7_counterexample :
    pExtraMsg.message = "hi" ∧
    dictGet (create_log_entry exNow pExtraMsg) "message" =
      some (Value.str "overridden") ∧
    (Value.str "overridden" : Value) ≠ Value.str "hi" :=
  ⟨rfl, rfl, by decide⟩

/-- Claim C7 (amended): `build` is total; provided the extra mapping does
not bind the key in question, the document maps "@timestamp" to the
(non-empty) serialized clock and "message"/"level"/"service" to exactly
the supplied values, and every optional field that is absent in the input
is omitted (the result key additionally requires the derivation not to
fire). -/
theorem C7_build_guarantees (now : UTCTime) (p : LogParams)
    (h1 : extraMentions p "@timestamp" = false)
    (h2 : extraMentions p "message" = false)
    (h3 : extraMentions p "level" = false)
    (h4 : extraMentions p "service" = false) :
    dictGet (create_log_entry now p) "@timestamp" =
      some (Value.str (isoformat now)) ∧
    isoformat now ≠ "" ∧
    dictGet (create_log_entry now p) "message" = some (Value.str p.message) ∧
    dictGet (create_log_entry now p) "level" = some (Value.str p.level) ∧
    dictGet (create_log_entry now p) "service" = some (Value.str p.service) ∧
    (p.logger = none → extraMentions p "logger" = false →
      dictGet (create_log_entry now p) "logger" = none) ∧
    (p.environment = none → extraMentions p "environment" = false →
      dictGet (create_log_entry now p) "environment" = none) ∧
    (p.model = none → extraMentions p "model" = false →
      dictGet (create_log_entry now p) "model" = none) ∧
    (p.method = none → extraMentions p "method" = false →
      dictGet (create_log_entry now p) "method" = none) ∧
    (p.action = none → extraMentions p "action" = false →
      dictGet (create_log_entry now p) "action" = none) ∧
    (p.expected_value = none → extraMentions p "expected_value" = false →
      dictGet (create_log_entry now p) "expected_value" = none) ∧
    (p.actual_value = none → extraMentions p "actual_value" = false →
      dictGet (create_log_entry now p) "actual_value" = none) ∧
    (p.result = none → (p.actual_value = none ∨ p.expected_value = none) →
      extraMentions p "result" = false →
      dictGet (create_log_entry now p) "result" = none) := by
  refine ⟨?_, isoformat_ne_empty now, ?_, ?_, ?_, ?_, ?_, ?_, ?_, ?_, ?_, ?_, ?_⟩
  · rw [dictGet_create_no_extra now p _ h1,
      dictGet_category_fields_other _ _ _ (by decide) (by decide) (by decide)
        (by decide) (by decide) (by decide) (by decide) (by decide),
      dictGet_initial_timestamp]
  · rw [dictGet_create_no_extra now p _ h2,
      dictGet_category_fields_other _ _ _ (by decide) (by decide) (by decide)
        (by decide) (by decide) (by decide) (by decide) (by decide),
      dictGet_initial_message]
  · rw [dictGet_create_no_extra now p _ h3,
      dictGet_category_fields_other _ _ _ (by decide) (by decide) (by decide)
        (by decide) (by decide) (by decide) (by decide) (by decide),
      dictGet_initial_level]
  · rw [dictGet_create_no_extra now p _ h4,
      dictGet_category_fields_other _ _ _ (by decide) (by decide) (by decide)
        (by decide) (by decide) (by decide) (by decide) (by decide),
      dictGet_initial_service]
  · intro hnone hx
    rw [dictGet_create_no_extra now p _ hx, dictGet_category_fields_logger]
    by_cases hc : p.log_type = "common"
    · rw [if_pos hc, hnone]
      exact dictGet_initial_other now p _ (by decide) (by decide) (by decide) (by decide)
    · rw [if_neg hc]
      exact dictGet_initial_other now p _ (by decide) (by decide) (by decide) (by decide)
  · intro hnone hx
    rw [dictGet_create_no_extra now p _ hx, dictGet_category_fields_environment]
    by_cases hc : p.log_type = "common"
    · rw [if_pos hc, hnone]
      exact dictGet_initial_other now p _ (by decide) (by decide) (by decide) (by decide)
    · rw [if_neg hc]
      exact dictGet_initial_other now p _ (by decide) (by decide) (by decide) (by decide)
  · intro hnone hx
    rw [dictGet_create_no_extra now p _ hx, dictGet_category_fields_model]
    by_cases hp : p.log_type = "process"
    · rw [if_pos hp, hnone]
      exact dictGet_initial_other now p _ (by decide) (by decide) (by decide) (by decide)
    · rw [if_neg hp]
      exact dictGet_initial_other now p _ (by decide) (by decide) (by decide) (by decide)
  · intro hnone hx
    rw [dictGet_create_no_extra now p _ hx, dictGet_category_fields_method]
    by_cases hp : p.log_type = "process"
    · rw [if_pos hp, hnone]
      exact dictGet_initial_other now p _ (by decide) (by decide) (by decide) (by decide)
    · rw [if_neg hp]
      exact dictGet_initial_other now p _ (by decide) (by decide) (by decide) (by decide)
  · intro hnone hx
    rw [dictGet_create_no_extra now p _ hx, dictGet_category_fields_action]
    by_cases hp : p.log_type = "process"
    · rw [if_pos hp, hnone]
      exact dictGet_initial_other now p _ (by decide) (by decide) (by decide) (by decide)
    · rw [if_neg hp]
      exact dictGet_initial_other now p _ (by decide) (by decide) (by decide) (by decide)
  · intro hnone hx
    rw [dictGet_create_no_extra now p _ hx, dictGet_category_fields_expected]
    by_cases hp : p.log_type = "process"
    · rw [if_pos hp, hnone]
      exact dictGet_initial_other now p _ (by decide) (by decide) (by decide) (by decide)
    · rw [if_neg hp]
      exact dictGet_initial_other now p _ (by decide) (by decide) (by decide) (by decide)
  · intro hnone hx
    rw [dictGet_create_no_extra now p _ hx, dictGet_category_fields_actual]
    by_cases hp : p.log_type = "process"
    · rw [if_pos hp, hnone]
      exact dictGet_initial_other now p _ (by decide) (by decide) (by decide) (by decide)
    · rw [if_neg hp]
      exact dictGet_initial_other now p _ (by decide) (by decide) (by decide) (by decide)
  · intro hres hor hx
    rw [dictGet_create_no_extra now p _ hx, dictGet_category_fields_result]
    by_cases hc : p.log_type = "common"
    · rw [if_pos hc]
      exact dictGet_initial_other now p _ (by decide) (by decide) (by decide) (by decide)
    · rw [if_neg hc]
      by_cases hp : p.log_type = "process"
      · rw [if_pos hp, hres]
        rcases hor with ha | he
        · rw [ha]
          exact dictGet_initial_other now p _ (by decide) (by decide) (by decide) (by decide)
        · cases hav : p.actual_value with
          | none =>
            exact dictGet_initial_other now p _ (by decide) (by decide) (by decide) (by decide)
          | some a =>
            rw [he]
            exact dictGet_initial_other now p _ (by decide) (by decide) (by decide) (by decide)
      · rw [if_neg hp]
        exact dictGet_initial_other now p _ (by decide) (by decide) (by decide) (by decide)

/-- A minimal call: only the mandatory message, everything else defaulted. -/
def pMinimal : LogParams := { message := "w" }

/-- Witness for C7 at a minimal concrete input. -/
theorem C7_build_guarantees_witness :
    dictGet (create_log_entry exNow pMinimal) "@timestamp" =
      some (Value.str (isoformat exNow)) ∧
    dictGet (create_log_entry exNow pMinimal) "message" = some (Value.str "w") ∧
    dictGet (create_log_entry exNow pMinimal) "logger" = none ∧
    dictGet (create_log_entry exNow pMinimal) "result" = none := by
  have h := C7_build_guarantees exNow pMinimal rfl rfl rfl rfl
  exact ⟨h.1, h.2.2.1, h.2.2.2.2.2.1 rfl rfl,
    h.2.2.2.2.2.2.2.2.2.2.2.2 rfl (Or.inl rfl) rfl⟩

/-- Claim C9: `log_type` is not validated — for any value other than
"common" and "process" the build still succeeds and the document carries
no category-specific fields: outside the four mandatory keys only keys the
extra mapping binds can appear, and the four mandatory keys are present. -/
theorem C9_unknown_log_type (now : UTCTime) (p : LogParams)
    (hc : p.log_type ≠ "common") (hp : p.log_type ≠ "process") :
    (∀ k, k ∉ ["@timestamp", "message", "level", "service"] →
      extraMentions p k = false →
      dictGet (create_log_entry now p) k = none) ∧
    (∀ k, k ∈ ["@timestamp", "message", "level", "service"] →
      (dictGet (create_log_entry now p) k).isSome = true) := by
  constructor
  · intro k hk hx
    rw [dictGet_create_no_extra now p k hx]
    unfold category_fields
    rw [if_neg hc, if_neg hp]
    simp only [List.mem_cons, List.not_mem_nil, or_false, not_or] at hk
    obtain ⟨n1, n2, n3, n4⟩ := hk
    exact dictGet_initial_other now p k n1 n2 n3 n4
  · intro k hk
    apply create_isSome
    simp only [List.mem_cons, List.not_mem_nil, or_false] at hk
    have hcf : dictGet (category_fields (initial_entry now p) p) k =
        dictGet (initial_entry now p) k := by
      unfold category_fields
      rw [if_neg hc, if_neg hp]
    rw [hcf]
    rcases hk with rfl | rfl | rfl | rfl
    · rw [dictGet_initial_timestamp]
      rfl
    · rw [dictGet_initial_message]
      rfl
    · rw [dictGet_initial_level]
      rfl
    · rw [dictGet_initial_service]
      rfl

/-- Witness for C9 at the log type "custom" with both category groups
supplied and an extra key bound. -/
theorem C9_unknown_log_type_witness :
    dictGet (create_log_entry exNow
      { message := "m", log_type := "custom",
        logger := some "main", model := some "nlp" }) "model" = none ∧
    dictGet (create_log_entry exNow
      { message := "m", log_type := "custom",
        logger := some "main", model := some "nlp" }) "logger" = none ∧
    (dictGet (create_log_entry exNow
      { message := "m", log_type := "custom",
        logger := some "main", model := some "nlp" }) "message").isSome = true :=
  ⟨(C9_unknown_log_type exNow
      { message := "m", log_type := "custom",
        logger := some "main", model := some "nlp" }
      (by decide) (by decide)).1 "model" (by decide) rfl,
   (C9_unknown_log_type exNow
      { message := "m", log_type := "custom",
        logger := some "main", model := some "nlp" }
      (by decide) (by decide)).1 "logger" (by decide) rfl,
   (C9_unknown_log_type exNow
      { message := "m", log_type := "custom",
        logger := some "main", model := some "nlp" }
      (by decide) (by decide)).2 "message" (by decide)⟩

end Elk
